import Mathlib

/-!
Verification development for the DreamyGRO dependency scanner
(Source/Main.cpp, Source/DictionaryReader.cpp).

C++ strings and byte buffers are shallowly embedded as lists of natural
numbers (one per byte).  The process-wide mutable globals
(_aFilesToPack, _ctFiles, _iFlags, _bCountFiles) become an explicit
ScanState record that every operation threads; the read-only globals
(_strRoot, _strMod, _aStdDepends) and the file system become a
ScanConfig record.  Fallible scans return Except, with the error value
carrying the state at the moment of the throw, since the C++ globals
survive an exception.
-/

set_option maxRecDepth 8000

/-- A byte of a C string or of a binary file. -/
abbrev Bytes := List Nat

/-- Byte list of a Lean string literal (ASCII contents only). -/
def str (s : String) : Bytes := s.data.map Char.toNat

/-- ASCII code of the forward slash. -/
def slashB : Nat := 47

/-- ASCII code of the backslash. -/
def backslashB : Nat := 92

/-- ASCII lowercasing of one byte, as CString::AsLower does per character. -/
def toLowerByte (b : Nat) : Nat := if 65 ≤ b ∧ b ≤ 90 then b + 32 else b

/-- CString::AsLower / ToLower. -/
def strLower (s : Bytes) : Bytes := s.map toLowerByte

/-- CString::StartsWith: second argument is the candidate prefix of the first. -/
def startsWith : Bytes → Bytes → Bool
  | _, [] => true
  | [], _ :: _ => false
  | a :: s, b :: p => a == b && startsWith s p

/-- CString::Replace(from, to) over every character. -/
def replaceChar (a b : Nat) (s : Bytes) : Bytes :=
  s.map (fun c => if c = a then b else c)

/-- CString::GetFileExt: the suffix starting at the last dot, "" when there is no dot. -/
def getFileExt (s : Bytes) : Bytes :=
  if s.contains 46 then s.drop (s.length - 1 - s.reverse.indexOf 46) else []

/-- CString::RemoveExt: everything before the last dot, the whole string when there is no dot. -/
def removeExt (s : Bytes) : Bytes :=
  if s.contains 46 then s.take (s.length - 1 - s.reverse.indexOf 46) else s

/-! ## Filename normalizer (FixFilename, DictionaryReader.cpp lines 45-78) -/

/-- Step 2 of FixFilename: strFilename.Replace of every backslash by a forward slash. -/
def replaceBackslashes (s : Bytes) : Bytes :=
  s.map (fun b => if b = backslashB then slashB else b)

/-- True when the string holds two consecutive forward slashes. -/
def hasDoubleSlash : Bytes → Bool
  | c :: d :: rest =>
    if c = slashB ∧ d = slashB then true else hasDoubleSlash (d :: rest)
  | _ => false

/-- Step 3 of FixFilename: the character-copy loop that drops a slash whose
following character is again a slash, reporting whether that ever happened
(each hit does _iFlags |= SCAN_SSR in the source).  The last character is
always copied because the iterator one past it reads the terminating null. -/
def collapseSlashesF : Bytes → Bytes × Bool
  | [] => ([], false)
  | [c] => ([c], false)
  | c :: d :: rest =>
    let r := collapseSlashesF (d :: rest)
    if c = slashB ∧ d = slashB then (r.1, true) else (c :: r.1, r.2)

/-- Step 4 of FixFilename: erase one leading slash, reporting whether it was there.
On an empty string the C++ index operator reads the terminating null, so nothing happens. -/
def stripLeadingSlash : Bytes → Bytes × Bool
  | [] => ([], false)
  | c :: rest => if c = slashB then (rest, true) else (c :: rest, false)

/-- FixFilename (DictionaryReader.cpp lines 45-78).  Returns the fixed string and
whether SCAN_SSR was OR-ed into _iFlags by any of its three triggers:
a forward slash anywhere, a collapsed double slash, a stripped leading slash. -/
def fixFilename (s : Bytes) : Bytes × Bool :=
  let ssrFind := s.contains slashB
  let s2 := replaceBackslashes s
  let col := collapseSlashesF s2
  let fin := stripLeadingSlash col.1
  (fin.1, ssrFind || col.2 || fin.2)

/-- The already-normalized inputs of claim C1: forward-slash separated
(no backslash), no duplicate slashes, no leading slash. -/
def isNormalized (s : Bytes) : Bool :=
  !s.contains backslashB && !hasDoubleSlash s && !(s.head? == some slashB)

/-- The effect of one FixFilename call on _iFlags: OR in SCAN_SSR (bit 0)
exactly when the call reported it. -/
def applySSR (flags : Nat) (b : Bool) : Nat := if b then flags ||| 1 else flags

/-! ## Packer flags (Main.h, EPackerFlags) and scan state -/

/-- IsRev(): SCAN_SSR is bit 0 of _iFlags. -/
def isRev (flags : Nat) : Bool := flags.testBit 0

/-- PackINI(): SCAN_INI is bit 1 of _iFlags. -/
def packINI (flags : Nat) : Bool := flags.testBit 1

/-- PackOGG(): SCAN_OGG is bit 2 of _iFlags. -/
def packOGG (flags : Nat) : Bool := flags.testBit 2

/-- EraseMod(): the SCAN_MOD bit set by CommandLine.cpp; its exact bit index is
immaterial here, only that it is distinct from the bits above. -/
def eraseMod (flags : Nat) : Bool := flags.testBit 5

/-- The mutable globals of Main.cpp that scanning changes:
_aFilesToPack (each entry a ListedFile_t of filename and ordinal),
_ctFiles, _iFlags and _bCountFiles. -/
structure ScanState where
  files : List (Bytes × Nat)
  ctFiles : Nat
  flags : Nat
  bCountFiles : Bool
deriving DecidableEq

/-- The read-only surroundings of a scan: _strRoot, _strMod, the standard
dependencies _aStdDepends (the hash set is modelled as the set of the hashed
lowercase strings themselves), and the file system, mapping a full path to
the file bytes when the file exists and can be opened. -/
structure ScanConfig where
  root : Bytes
  mod : Bytes
  deps : List Bytes
  fs : Bytes → Option Bytes

/-- FileExists on a full path. -/
def fileExistsAt (cfg : ScanConfig) (p : Bytes) : Bool := (cfg.fs p).isSome

/-- InDepends (Main.cpp lines 48-61): membership of the hashed string in
_aStdDepends. -/
def inDepends (deps : List Bytes) (s : Bytes) : Bool := deps.contains s

/-- InFiles (Main.cpp lines 64-79): case-insensitive search of _aFilesToPack. -/
def inFiles (files : List (Bytes × Nat)) (s : Bytes) : Bool :=
  files.any (fun e => strLower e.1 == strLower s)

/-- AddFile (Main.cpp lines 82-99): append the filename unless a
case-insensitive duplicate is listed; under _bCountFiles also bump _ctFiles
and record it as the ordinal.  Returns true when the file was new. -/
def addFile (st : ScanState) (s : Bytes) : ScanState × Bool :=
  if inFiles st.files s then (st, false)
  else if st.bCountFiles then
    ({ st with ctFiles := st.ctFiles + 1, files := st.files ++ [(s, st.ctFiles + 1)] }, true)
  else
    ({ st with files := st.files ++ [(s, 0)] }, true)

/-- ReplaceRevDirs (Main.cpp lines 102-121): drop the two MP characters from
the known directory names, comparing case-insensitively. -/
def replaceRevDirs (s : Bytes) : Bytes :=
  let c := strLower s
  let n : Nat :=
    if startsWith c (str "modelsmp") ∨ startsWith c (str "soundsmp") then 6
    else if startsWith c (str "musicmp") then 5
    else if startsWith c (str "datamp") then 4
    else if startsWith c (str "texturesmp") then 8
    else if startsWith c (str "animationsmp") then 10
    else 0
  if n = 0 then s else s.take n ++ s.drop (n + 2)

/-- Number of entries of _aFilesToPack whose lowercase form equals that of s. -/
def countLower (files : List (Bytes × Nat)) (s : Bytes) : Nat :=
  (files.filter (fun e => strLower e.1 == strLower s)).length

/-- Boolean statement that _aFilesToPack holds no case-insensitive duplicate. -/
def noDupFiles : List (Bytes × Nat) → Bool
  | [] => true
  | e :: r => !inFiles r e.1 && noDupFiles r

/-! ## Chunk stream reader -/

/-- A CDataStream over an open CFileDevice: the whole file and a cursor. -/
structure DStream where
  data : Bytes
  pos : Nat
deriving DecidableEq

/-- Modelled from the spec: peek(n) returns the next n bytes without advancing,
fewer at end of stream (the CDataStream code lives in the DreamyUtilities
library, outside this repository). -/
def dpeek (s : DStream) (n : Nat) : Bytes := (s.data.drop s.pos).take n

/-- Modelled from the spec: a read returns the next n bytes, fewer at end of
stream, and advances the cursor by n. -/
def dread (s : DStream) (n : Nat) : Bytes × DStream :=
  ((s.data.drop s.pos).take n, ⟨s.data, s.pos + n⟩)

/-- Modelled from the spec: Skip(n) advances the cursor. -/
def dskip (s : DStream) (n : Nat) : DStream := ⟨s.data, s.pos + n⟩

/-- Modelled from the spec: Seek(p) repositions the cursor; seeking past the
end is legal. -/
def dseek (s : DStream) (p : Nat) : DStream := ⟨s.data, p⟩

/-- Modelled from the spec: AtEnd() holds when the cursor reached or passed
the end of the buffer. -/
def dAtEnd (s : DStream) : Bool := s.data.length ≤ s.pos

/-- Little-endian 32-bit value of the first four list entries, absent bytes
reading as zero. -/
def leU32 (l : Bytes) : Nat :=
  l.getD 0 0 + 256 * l.getD 1 0 + 65536 * l.getD 2 0 + 16777216 * l.getD 3 0

/-- Two-complement reading of a 32-bit value as a signed integer. -/
def asS32 (n : Nat) : Int := if n < 2 ^ 31 then (n : Int) else (n : Int) - 2 ^ 32

/-- Modelled from the spec: operator>> for s32 reads four little-endian bytes. -/
def readS32 (s : DStream) : Int × DStream := (asS32 (leU32 (dpeek s 4)), dskip s 4)

/-- Conversion of an s32 used as a Seek target: a negative value becomes a
huge size_t in the source, so the cursor lands past the end of the stream. -/
def s32ToPos (data : Bytes) (v : Int) : Nat :=
  if v < 0 then data.length + 1 else v.toNat

/-- Modelled from the spec: readLengthPrefixedString reads a signed 32-bit
length and then that many bytes; a length at or above the sanity ceiling 254
(or negative, whose u32 form is far above it) aborts the read for that field
with the length bytes consumed. -/
def readLPString (s : DStream) : Bytes × DStream :=
  let n := leU32 (dpeek s 4)
  let s1 := dskip s 4
  if n < 254 then dread s1 n else ([], s1)

/-- Modelled from the spec: expect(tag) reads four bytes and fails on mismatch
(a FormatError, fatal for the file being scanned). -/
def dexpect (s : DStream) (tag : Bytes) : Option DStream :=
  let r := dread s 4
  if r.1 = tag then some r.2 else none

/-- The two CMessageException causes of a scan: a file that cannot be opened,
and a structural mismatch. -/
inductive ScanError where
  | cannotOpen : ScanError
  | badFormat : ScanError
deriving DecidableEq

/-! ## Extra-dependency expanders (DictionaryReader.cpp lines 81-163) -/

/-- AddExtrasWithMDL (lines 81-86): under PackINI schedule the same-named
INI config next to the model. -/
def addExtrasWithMDL (st : ScanState) (fn : Bytes) : ScanState :=
  if packINI st.flags then (addFile st (removeExt fn ++ str ".ini")).1 else st

/-- The backward scan of AddExtrasWithTEX (lines 110-129): from pos, while the
cursor is above 56, peek one byte; on a null skip it and stop, else step one
byte back counting the character.  Returns the final cursor, the character
count, and (for the analysis of claim C3) the list of inspected positions. -/
def texBackScan (data : Bytes) : Nat → Nat → Nat × Nat × List Nat
  | 0, ct => (0, ct, [])
  | pos + 1, ct =>
    if pos + 1 ≤ 56 then (pos + 1, ct, [])
    else if data.getD (pos + 1) 0 = 0 then (pos + 2, ct, [pos + 1])
    else
      let r := texBackScan data pos (ct + 1)
      (r.1, r.2.1, (pos + 1) :: r.2.2)

/-- AddExtrasWithTEX (lines 89-163): open the texture (under the mod directory
first, falling back to the root when the mod copy is absent), check the FXDT
marker behind the fixed 36-byte header, scan backward from the last byte for a
null, and run the recovered base-texture name through normalization, the
dependency checks and AddFile.  The CString built from the read bytes stops at
the first null. -/
def addExtrasWithTEX (cfg : ScanConfig) (st : ScanState) (rel : Bytes) : ScanState :=
  let underMod := cfg.root ++ cfg.mod ++ rel
  let fname := if cfg.mod ≠ [] ∧ ¬fileExistsAt cfg underMod then cfg.root ++ rel else underMod
  match cfg.fs fname with
  | none => st
  | some data =>
    if (data.drop 36).take 4 ≠ str "FXDT" then st
    else
      let scan := texBackScan data (data.length - 1) 0
      if scan.2.1 = 0 then st
      else
        let raw := (data.drop scan.1).take scan.2.1
        let fx := fixFilename (raw.takeWhile (fun b => b ≠ 0))
        let st1 := { st with flags := applySSR st.flags fx.2 }
        let check := strLower fx.1
        if inDepends cfg.deps check then st1
        else if isRev st1.flags then
          let c1 := replaceRevDirs check
          if inDepends cfg.deps c1 then st1
          else
            let c2 := replaceChar 32 95 c1
            if inDepends cfg.deps c2 then st1 else (addFile st1 fx.1).1
        else (addFile st1 fx.1).1

/-! ## Acceptance pipeline (TryToAddFile, DictionaryReader.cpp lines 166-214) -/

/-- The dependency key TryToAddFile checks first: the lowercase filename, with
an active mod-directory name stripped from the front (lines 168-180). -/
def tryKey (cfg : ScanConfig) (flags : Nat) (fn : Bytes) : Bytes :=
  let check := strLower fn
  if eraseMod flags ∧ cfg.mod ≠ [] ∧ startsWith check (strLower cfg.mod)
  then check.drop cfg.mod.length else check

/-- The filename TryToAddFile would schedule: the original-case name with an
active mod-directory name stripped from the front. -/
def tryName (cfg : ScanConfig) (flags : Nat) (fn : Bytes) : Bytes :=
  let check := strLower fn
  if eraseMod flags ∧ cfg.mod ≠ [] ∧ startsWith check (strLower cfg.mod)
  then fn.drop cfg.mod.length else fn

/-- Tail of TryToAddFile from line 203: AddFile, then the per-extension extras
using the (possibly substituted) lowercase check string for the extension. -/
def tryToAddTail (cfg : ScanConfig) (st : ScanState) (fn check : Bytes) : ScanState :=
  let r := addFile st fn
  if r.2 = false then r.1
  else
    let ext := getFileExt check
    if ext = str ".mdl" then addExtrasWithMDL r.1 fn
    else if ext = str ".tex" then addExtrasWithTEX cfg r.1 check
    else r.1

/-- The IsRev block of TryToAddFile (lines 193-201): directory substitution
then space substitution, each retrying the dependency lookup. -/
def tryToAddRev (cfg : ScanConfig) (st : ScanState) (fn check : Bytes) : ScanState :=
  if isRev st.flags then
    let c1 := replaceRevDirs check
    if inDepends cfg.deps c1 then st
    else
      let c2 := replaceChar 32 95 c1
      if inDepends cfg.deps c2 then st else tryToAddTail cfg st fn c2
  else tryToAddTail cfg st fn check

/-- The OGG-substitution block of TryToAddFile (lines 186-191). -/
def tryToAddOgg (cfg : ScanConfig) (st : ScanState) (fn check : Bytes) : ScanState :=
  if packOGG st.flags ∧ getFileExt check = str ".mp3" then
    let check2 := removeExt check ++ str ".ogg"
    if inDepends cfg.deps check2 then st else tryToAddRev cfg st fn check2
  else tryToAddRev cfg st fn check

/-- TryToAddFile (lines 166-214): compute the dependency key, stop when it is
already a standard dependency, otherwise run the substitution fallbacks and
schedule the file with its extras. -/
def tryToAddFile (cfg : ScanConfig) (st : ScanState) (fn : Bytes) : ScanState :=
  if inDepends cfg.deps (tryKey cfg st.flags fn) then st
  else tryToAddOgg cfg st (tryName cfg st.flags fn) (tryKey cfg st.flags fn)

/-! ## World scanner (ScanWorldDictionary and ScanWorld,
DictionaryReader.cpp lines 217-357; VerifyWorldFile, Main.cpp lines 124-136) -/

/-- The per-entry loop of ScanWorldDictionary (lines 225-237): expect DFNM,
read the filename, skip it when empty, otherwise normalize (updating _iFlags)
and feed the acceptance pipeline.  Errors carry the state at the throw. -/
def scanDictEntries (cfg : ScanConfig) :
    Nat → ScanState → DStream → Except (ScanError × ScanState) (ScanState × DStream)
  | 0, st, strm => .ok (st, strm)
  | n + 1, st, strm =>
    match dexpect strm (str "DFNM") with
    | none => .error (.badFormat, st)
    | some s1 =>
      let r := readLPString s1
      if r.1 = [] then scanDictEntries cfg n st r.2
      else
        let fx := fixFilename r.1
        let st1 := { st with flags := applySSR st.flags fx.2 }
        scanDictEntries cfg n (tryToAddFile cfg st1 fx.1) r.2

/-- ScanWorldDictionary (lines 217-241): DICT marker, signed entry count
(a negative count runs no iterations), the entries, then the DEND marker. -/
def scanWorldDictionary (cfg : ScanConfig) (st : ScanState) (strm : DStream) :
    Except (ScanError × ScanState) (ScanState × DStream) :=
  match dexpect strm (str "DICT") with
  | none => .error (.badFormat, st)
  | some s1 =>
    let c := readS32 s1
    match scanDictEntries cfg c.1.toNat st c.2 with
    | .error e => .error e
    | .ok (st1, s2) =>
      match dexpect s2 (str "DEND") with
      | none => .error (.badFormat, st1)
      | some s3 => .ok (st1, s3)

/-- VerifyWorldFile (Main.cpp lines 124-136): BUIV marker, the build version,
then the WRLD marker; none on either mismatch (the thrown CMessageException). -/
def verifyWorldFile (s : DStream) : Option DStream :=
  let r1 := dread s 4
  if r1.1 ≠ str "BUIV" then none
  else
    let r2 := readS32 r1.2
    let r3 := dread r2.2 4
    if r3.1 ≠ str "WRLD" then none else some r3.2

/-- The thumbnail name ScanWorld settles on (lines 300-308): the
worldTbn.tex convention, falling back to world.tbn when that file is absent. -/
def resolveThumb (cfg : ScanConfig) (w : Bytes) : Bytes :=
  let noExt := removeExt w
  if fileExistsAt cfg (cfg.root ++ cfg.mod ++ (noExt ++ str "Tbn.tex"))
  then noExt ++ str "Tbn.tex" else noExt ++ str ".tbn"

/-- The implied-files block of ScanWorld (lines 299-320): AddFile the resolved
thumbnail and the VIS file whenever each exists on disk, with no dependency
lookup. -/
def addWorldExtras (cfg : ScanConfig) (st : ScanState) (w : Bytes) : ScanState :=
  let extra := resolveThumb cfg w
  let st1 := if fileExistsAt cfg (cfg.root ++ cfg.mod ++ extra) then (addFile st extra).1 else st
  let vis := removeExt w ++ str ".vis"
  if fileExistsAt cfg (cfg.root ++ cfg.mod ++ vis) then (addFile st1 vis).1 else st1

/-- The linear scan of ScanWorld for the first DPOS marker (lines 322-331):
peek four bytes, on a match skip them and stop, else advance one byte, until
the end of the stream.  The fuel is at least the remaining byte count, so it
never runs out before AtEnd. -/
def findDPos : Nat → DStream → DStream
  | 0, s => s
  | fuel + 1, s =>
    if dAtEnd s then s
    else if dpeek s 4 = str "DPOS" then dskip s 4
    else findDPos fuel (dskip s 1)

/-- The body of ScanWorld after the two verification markers (DictionaryReader.cpp
lines 255-356): skip the world-info preamble (three of its optional chunks
setting SCAN_SSR), probe the thumbnail and VIS files, locate the first DPOS by
linear scan, and read the two dictionaries at their stored offsets. -/
def scanWorldBody (cfg : ScanConfig) (st : ScanState) (w : Bytes) (s3 : DStream) :
    Except (ScanError × ScanState) ScanState :=
  match dexpect s3 (str "WLIF") with
  | none => .error (.badFormat, st)
  | some s4 =>
    let s5 := if dpeek s4 4 = str "DTRS" then dskip s4 4 else s4
    let p1 : ScanState × DStream :=
      if dpeek s5 4 = str "LDRB" then
        ({ st with flags := st.flags ||| 1 }, (readLPString (dskip s5 4)).2)
      else (st, s5)
    let p2 : ScanState × DStream :=
      if dpeek p1.2 4 = str "Plv0" then
        ({ p1.1 with flags := p1.1.flags ||| 1 }, dskip p1.2 16)
      else p1
    let s8 := dskip (readLPString p2.2).2 4
    let p3 : ScanState × DStream :=
      if dpeek s8 4 = str "SpGM" then
        ({ p2.1 with flags := p2.1.flags ||| 1 }, dskip s8 4)
      else (p2.1, s8)
    let s11 := (readLPString p3.2).2
    let st4 := addWorldExtras cfg p3.1 w
    let s12 := findDPos (s11.data.length + 1) s11
    let q1 := readS32 s12
    match scanWorldDictionary cfg st4 (dseek q1.2 (s32ToPos q1.2.data q1.1)) with
    | .error e => .error e
    | .ok (st5, s15) =>
      match dexpect s15 (str "DPOS") with
      | none => .error (.badFormat, st5)
      | some s16 =>
        let q2 := readS32 s16
        match scanWorldDictionary cfg st5 (dseek q2.2 (s32ToPos q2.2.data q2.1)) with
        | .error e => .error e
        | .ok (st6, _) => .ok st6

/-- ScanWorld (DictionaryReader.cpp lines 244-357): open the world under
root+mod, verify the two markers, then run the body above. -/
def scanWorld (cfg : ScanConfig) (st : ScanState) (w : Bytes) :
    Except (ScanError × ScanState) ScanState :=
  match cfg.fs (cfg.root ++ cfg.mod ++ w) with
  | none => .error (.cannotOpen, st)
  | some data =>
    match verifyWorldFile ⟨data, 0⟩ with
    | none => .error (.badFormat, st)
    | some s3 => scanWorldBody cfg st w s3

/-! ## Generic file scanner (ScanAnyFile, DictionaryReader.cpp lines 360-461)
and the scan loop of main (Main.cpp lines 254-277) -/

/-- The EFNM read (lines 415-425): collect bytes until a null or the end of
the stream, consuming the collected bytes but not the terminator.  The fuel is
at least the remaining byte count. -/
def readCGo (data : Bytes) : Nat → Nat → Bytes → Bytes × Nat
  | 0, pos, acc => (acc, pos)
  | fuel + 1, pos, acc =>
    if data.length ≤ pos then (acc, pos)
    else if data.getD pos 0 = 0 then (acc, pos)
    else readCGo data fuel (pos + 1) (acc ++ [data.getD pos 0])

/-- The TFNM read (lines 431-441): collect bytes until a newline, carriage
return, null, 254-character cap, or the end of the stream. -/
def readTextGo (data : Bytes) : Nat → Nat → Bytes → Bytes × Nat
  | 0, pos, acc => (acc, pos)
  | fuel + 1, pos, acc =>
    if data.length ≤ pos then (acc, pos)
    else
      let ch := data.getD pos 0
      if ch = 10 ∨ ch = 13 ∨ ch = 0 ∨ 254 ≤ acc.length then (acc, pos)
      else readTextGo data fuel (pos + 1) (acc ++ [ch])

/-- Lines 444-452 of the loop body: a nonempty extracted filename is
normalized and fed to the acceptance pipeline, an empty one advances the
cursor by a single byte. -/
def scanAnyFinish (cfg : ScanConfig) (st : ScanState) (fn : Bytes) (strm : DStream) :
    ScanState × DStream :=
  if fn ≠ [] then
    let fx := fixFilename fn
    let st1 := { st with flags := applySSR st.flags fx.2 }
    (tryToAddFile cfg st1 fx.1, strm)
  else (st, dskip strm 1)

/-- One iteration of the ScanAnyFile loop (lines 392-452), entered with four
peekable bytes: match the chunk tag against DFNM (size-guarded
length-prefixed string), EFNM (null-terminated run) and TFNM (skip the tag
and one space, then a text run), then dispatch on the extracted filename. -/
def scanAnyStep (cfg : ScanConfig) (st : ScanState) (strm : DStream) :
    ScanState × DStream :=
  let chunk := dpeek strm 4
  if chunk = str "DFNM" then
    let s1 := dskip strm 4
    if leU32 (dpeek s1 4) < 254 then
      let r := readLPString s1
      scanAnyFinish cfg st r.1 r.2
    else scanAnyFinish cfg st [] s1
  else if chunk = str "EFNM" then
    let s1 := dskip strm 4
    let r := readCGo s1.data (s1.data.length + 1) s1.pos []
    scanAnyFinish cfg st r.1 ⟨s1.data, r.2⟩
  else if chunk = str "TFNM" then
    let s1 := dskip strm 5
    let r := readTextGo s1.data (s1.data.length + 1) s1.pos []
    scanAnyFinish cfg st r.1 ⟨s1.data, r.2⟩
  else scanAnyFinish cfg st [] strm

/-- The while loop of ScanAnyFile: stop at the end of the stream or when
fewer than four bytes can be peeked, else run one step.  Every step advances
the cursor by at least one byte, so fuel of the buffer length plus one never
runs out before the loop stops. -/
def scanAnyLoop (cfg : ScanConfig) : Nat → ScanState → DStream → ScanState
  | 0, st, _ => st
  | fuel + 1, st, strm =>
    if dAtEnd strm then st
    else if (dpeek strm 4).length ≠ 4 then st
    else
      let r := scanAnyStep cfg st strm
      scanAnyLoop cfg fuel r.1 r.2

/-- ScanAnyFile (lines 360-461): open the file under root+mod and walk the
whole byte range.  The Windows-only library pre-pass that seeks past the
first executable section is build-excluded here, as on the _DREAMY_UNIX
build, so the bLibrary argument has no effect. -/
def scanAnyFile (cfg : ScanConfig) (st : ScanState) (f : Bytes) (_bLib : Bool) :
    Except (ScanError × ScanState) ScanState :=
  match cfg.fs (cfg.root ++ cfg.mod ++ f) with
  | none => .error (.cannotOpen, st)
  | some data => .ok (scanAnyLoop cfg (data.length + 1) st ⟨data, 0⟩)

/-- One iteration of the scan loop of main (Main.cpp lines 254-266): worlds by
their .wld extension go to ScanWorld, everything else to ScanAnyFile with the
library flag for .dll. -/
def scanOneFile (cfg : ScanConfig) (st : ScanState) (f : Bytes) :
    Except (ScanError × ScanState) ScanState :=
  let ext := strLower (getFileExt f)
  if ext = str ".wld" then scanWorld cfg st f
  else scanAnyFile cfg st f (ext = str ".dll")

/-- The scan loop of main over _aScanFiles, inside the single try block of
main (Main.cpp lines 201-277): the first CMessageException propagates out of
the loop and ends the run. -/
def scanFilesLoop (cfg : ScanConfig) (st : ScanState) :
    List Bytes → Except (ScanError × ScanState) ScanState
  | [] => .ok st
  | f :: rest =>
    match scanOneFile cfg st f with
    | .error e => .error e
    | .ok st1 => scanFilesLoop cfg st1 rest

/-- The scheduled filenames of a successful run, none for an aborted one. -/
def runFiles (r : Except (ScanError × ScanState) ScanState) : Option (List Bytes) :=
  match r with
  | .ok st => some (st.files.map Prod.fst)
  | .error _ => none

/-- The error cause and the files scheduled up to the throw of an aborted run. -/
def runError (r : Except (ScanError × ScanState) ScanState) :
    Option (ScanError × List Bytes) :=
  match r with
  | .ok _ => none
  | .error e => some (e.1, e.2.files.map Prod.fst)

/-- The scheduled filenames after one dictionary scan, none on a format error. -/
def dictFiles (r : Except (ScanError × ScanState) (ScanState × DStream)) :
    Option (List Bytes) :=
  match r with
  | .ok (st, _) => some (st.files.map Prod.fst)
  | .error _ => none

/-! ## Concrete fixtures -/

/-- A scan start state: empty file list, counter running, the given flags. -/
def st0 (flags : Nat) : ScanState := ⟨[], 0, flags, true⟩

/-- A configuration with no root, no mod, no standard dependencies and the
given file system. -/
def cfg0 (fs : Bytes → Option Bytes) : ScanConfig := ⟨[], [], [], fs⟩

/-- The claim C6 dictionary: count 2, a model entry and an empty entry. -/
def dictC6 : Bytes :=
  str "DICT" ++ [2, 0, 0, 0] ++ str "DFNM" ++ [15, 0, 0, 0] ++ str "Models\\Tree.mdl"
    ++ str "DFNM" ++ [0, 0, 0, 0] ++ str "DEND"

/-- The claim C7 world bytes: a BUIV marker and build version, then garbage
where the WRLD marker belongs. -/
def dataC7 : Bytes := str "BUIV" ++ [1, 0, 0, 0] ++ str "XXXX"

/-- The claim C7 configuration: only the world file w.wld is on disk. -/
def cfgC7 : ScanConfig := cfg0 (fun p => if p = str "w.wld" then some dataC7 else none)

/-- The claim C2 generic file: one DFNM chunk carrying Sound.wav. -/
def dataC2 : Bytes := str "DFNM" ++ [9, 0, 0, 0] ++ str "Sound.wav"

/-- The claim C2 configuration: b.txt is on disk, the listed world a.wld is not. -/
def cfgC2 : ScanConfig := cfg0 (fun p => if p = str "b.txt" then some dataC2 else none)

/-- The claim C3 effect texture: a 36-byte header, the FXDT marker, and 160
nonzero bytes, 200 bytes in all with no null anywhere the backward scan looks. -/
def fileC3 : Bytes := List.replicate 36 1 ++ str "FXDT" ++ List.replicate 160 65

/-- The claim C9 configuration: the thumbnail LevTbn.tex and the visibility
file Lev.vis exist on disk and both lowercase keys sit in _aStdDepends. -/
def cfgC9 : ScanConfig :=
  ⟨[], [], [str "levtbn.tex", str "lev.vis"],
    fun p => if p = str "LevTbn.tex" ∨ p = str "Lev.vis" then some [] else none⟩
/-! ## Normalizer lemmas -/

theorem fixFilename_fst (s : Bytes) :
    (fixFilename s).1 = (stripLeadingSlash (collapseSlashesF (replaceBackslashes s)).1).1 := rfl

theorem fixFilename_snd (s : Bytes) :
    (fixFilename s).2
      = (s.contains slashB || (collapseSlashesF (replaceBackslashes s)).2
          || (stripLeadingSlash (collapseSlashesF (replaceBackslashes s)).1).2) := rfl

theorem replaceBackslashes_of_no_backslash :
    ∀ s : Bytes, backslashB ∉ s → replaceBackslashes s = s
  | [], _ => rfl
  | c :: t, h => by
    have h1 : ¬(c = backslashB) := fun hh => h (by simp [hh])
    have h2 : backslashB ∉ t := fun hh => h (by simp [hh])
    have ih := replaceBackslashes_of_no_backslash t h2
    simp only [replaceBackslashes, List.map_cons] at ih ⊢
    rw [if_neg h1, ih]

theorem collapseSlashesF_self :
    ∀ s : Bytes, hasDoubleSlash s = false → collapseSlashesF s = (s, false)
  | [], _ => rfl
  | [_], _ => rfl
  | c :: d :: t, h => by
    have hc : ¬(c = slashB ∧ d = slashB) := by
      intro hh
      simp [hasDoubleSlash, hh] at h
    have ht : hasDoubleSlash (d :: t) = false := by
      simpa [hasDoubleSlash, hc] using h
    have ih := collapseSlashesF_self (d :: t) ht
    simp [collapseSlashesF, hc, ih]

theorem collapseSlashesF_head :
    ∀ s : Bytes, (collapseSlashesF s).1.head? = s.head?
  | [] => rfl
  | [_] => rfl
  | c :: d :: t => by
    have ih := collapseSlashesF_head (d :: t)
    by_cases hc : c = slashB ∧ d = slashB
    · simp only [collapseSlashesF, if_pos hc]
      rw [ih]
      simp [hc.1, hc.2]
    · simp [collapseSlashesF, hc]

theorem collapseSlashesF_no_dslash :
    ∀ s : Bytes, hasDoubleSlash (collapseSlashesF s).1 = false
  | [] => rfl
  | [_] => rfl
  | c :: d :: t => by
    have ih := collapseSlashesF_no_dslash (d :: t)
    have ihead := collapseSlashesF_head (d :: t)
    by_cases hc : c = slashB ∧ d = slashB
    · simpa [collapseSlashesF, hc] using ih
    · simp only [collapseSlashesF, if_neg hc]
      cases hr : (collapseSlashesF (d :: t)).1 with
      | nil => simp [hasDoubleSlash]
      | cons e r2 =>
        rw [hr] at ihead ih
        have he : e = d := by simpa using ihead
        have hce : ¬(c = slashB ∧ e = slashB) := by rw [he]; exact hc
        simpa [hasDoubleSlash, hce] using ih

theorem collapseSlashesF_flag :
    ∀ s : Bytes, (collapseSlashesF s).2 = hasDoubleSlash s
  | [] => rfl
  | [_] => rfl
  | c :: d :: t => by
    have ih := collapseSlashesF_flag (d :: t)
    by_cases hc : c = slashB ∧ d = slashB
    · simp [collapseSlashesF, hasDoubleSlash, hc]
    · simp [collapseSlashesF, hasDoubleSlash, hc, ih]

theorem hasDoubleSlash_tail :
    ∀ s : Bytes, hasDoubleSlash s = false → hasDoubleSlash s.tail = false
  | [], _ => rfl
  | [_], _ => rfl
  | c :: d :: t, h => by
    by_cases hc : c = slashB ∧ d = slashB
    · simp [hasDoubleSlash, hc] at h
    · simpa [hasDoubleSlash, hc] using h

theorem stripLeadingSlash_self (s : Bytes) (h : s.head? ≠ some slashB) :
    stripLeadingSlash s = (s, false) := by
  cases s with
  | nil => rfl
  | cons c t =>
    have hc : ¬(c = slashB) := fun hh => h (by simp [hh])
    simp [stripLeadingSlash, hc]

theorem stripLeadingSlash_no_dslash (s : Bytes) (h : hasDoubleSlash s = false) :
    hasDoubleSlash (stripLeadingSlash s).1 = false := by
  cases s with
  | nil => exact h
  | cons c t =>
    by_cases hc : c = slashB
    · simpa [stripLeadingSlash, hc] using hasDoubleSlash_tail (c :: t) h
    · simpa [stripLeadingSlash, hc] using h

/-! ## Claim C1 -/

/-- C1, counterexample: the already-normalized path a/b (forward-slash
separated, no backslash, no duplicate slash, no leading slash) comes back
unchanged, yet FixFilename turns the SCAN_SSR bit on, so _iFlags 0 does not
survive the call: the claim that no new GameVariantFlags bits are set is
false. -/
theorem fixFilename_c1_counterexample :
    isNormalized (str "a/b") = true
      ∧ (fixFilename (str "a/b")).1 = str "a/b"
      ∧ applySSR 0 (fixFilename (str "a/b")).2 ≠ 0 := by decide

/-- C1, amended: normalizing an already-normalized path returns it unchanged;
_iFlags is unchanged when the path contains no forward slash, and gains
exactly the SCAN_SSR bit when it does (step 1 of the normalizer marks the
alternate variant for any string containing a forward slash). -/
theorem fixFilename_normalized (s : Bytes) (h : isNormalized s = true) :
    fixFilename s = (s, s.contains slashB) := by
  have h3 : (s.head? == some slashB) = false := by
    simp only [isNormalized, Bool.and_eq_true, Bool.not_eq_true'] at h
    exact h.2
  have h2 : hasDoubleSlash s = false := by
    simp only [isNormalized, Bool.and_eq_true, Bool.not_eq_true'] at h
    exact h.1.2
  have h1 : backslashB ∉ s := by
    simp only [isNormalized, Bool.and_eq_true, Bool.not_eq_true'] at h
    simpa using h.1.1
  have e1 := replaceBackslashes_of_no_backslash s h1
  have e2 := collapseSlashesF_self s h2
  have e3 := stripLeadingSlash_self s (by simpa using h3)
  simp [fixFilename, e1, e2, e3]

/-- C1, witness of the amended theorem at the normalized path Models/Tree.mdl. -/
theorem fixFilename_normalized_witness :
    isNormalized (str "Models/Tree.mdl") = true
      ∧ fixFilename (str "Models/Tree.mdl")
          = (str "Models/Tree.mdl", (str "Models/Tree.mdl").contains slashB) :=
  ⟨by decide, fixFilename_normalized (str "Models/Tree.mdl") (by decide)⟩

/-! ## Claim C8 -/

/-- C8: for every raw filename holding two consecutive forward slashes after
the backslash replacement, the normalizer output holds no double slash (runs
of slashes collapse, interior ones to a single slash, a leading run is then
stripped entirely) and the SCAN_SSR variant flag is reported set. -/
theorem fixFilename_no_double_slash (s : Bytes)
    (h : hasDoubleSlash (replaceBackslashes s) = true) :
    hasDoubleSlash (fixFilename s).1 = false ∧ (fixFilename s).2 = true := by
  constructor
  · rw [fixFilename_fst]
    exact stripLeadingSlash_no_dslash _ (collapseSlashesF_no_dslash _)
  · rw [fixFilename_snd, collapseSlashesF_flag, h]
    simp

/-- C8, witness at the raw filename with two backslashes in a row, whose
backslash-replaced form holds a double slash. -/
theorem fixFilename_no_double_slash_witness :
    hasDoubleSlash (replaceBackslashes (str "a\\\\b")) = true
      ∧ hasDoubleSlash (fixFilename (str "a\\\\b")).1 = false
      ∧ (fixFilename (str "a\\\\b")).2 = true :=
  ⟨by decide, (fixFilename_no_double_slash (str "a\\\\b") (by decide)).1,
    (fixFilename_no_double_slash (str "a\\\\b") (by decide)).2⟩

/-! ## Claim C4 -/

/-- C4: for every filename whose lowercase dependency key (the lowercased
name, with an active mod-directory name stripped, exactly as TryToAddFile
computes it) is already in _aStdDepends, TryToAddFile returns with the whole
scan state unchanged: nothing is appended to _aFilesToPack and no config or
base-texture extra is expanded. -/
theorem tryToAddFile_inDepends (cfg : ScanConfig) (st : ScanState) (fn : Bytes)
    (h : inDepends cfg.deps (tryKey cfg st.flags fn) = true) :
    tryToAddFile cfg st fn = st := by
  simp [tryToAddFile, h]

/-- C4, witness: A.tex whose lowercase key a.tex is a standard dependency. -/
theorem tryToAddFile_inDepends_witness :
    inDepends (ScanConfig.mk [] [] [str "a.tex"] (fun _ => none)).deps
        (tryKey (ScanConfig.mk [] [] [str "a.tex"] (fun _ => none)) (st0 0).flags (str "A.tex")) = true
      ∧ tryToAddFile (ScanConfig.mk [] [] [str "a.tex"] (fun _ => none)) (st0 0) (str "A.tex") = st0 0 :=
  ⟨by decide, tryToAddFile_inDepends _ _ _ (by decide)⟩

/-! ## Claim C5 -/

theorem inFiles_congr (files : List (Bytes × Nat)) {s t : Bytes}
    (h : strLower t = strLower s) : inFiles files t = inFiles files s := by
  simp [inFiles, h]

theorem inFiles_append (l m : List (Bytes × Nat)) (s : Bytes) :
    inFiles (l ++ m) s = (inFiles l s || inFiles m s) := by
  simp [inFiles, List.any_append]

theorem addFile_already (st : ScanState) (t : Bytes)
    (h : inFiles st.files t = true) : addFile st t = (st, false) := by
  simp [addFile, h]

theorem addFile_files_new (st : ScanState) (s : Bytes)
    (h : inFiles st.files s = false) :
    (addFile st s).1.files
      = st.files ++ [(s, if st.bCountFiles then st.ctFiles + 1 else 0)] := by
  by_cases hb : st.bCountFiles <;> simp [addFile, h, hb]

theorem addFile_mem (st : ScanState) (s : Bytes) :
    inFiles (addFile st s).1.files s = true := by
  by_cases h : inFiles st.files s
  · simp [addFile, h]
  · rw [addFile_files_new st s (by simpa using h), inFiles_append]
    simp [inFiles]

theorem countLower_append (l m : List (Bytes × Nat)) (s : Bytes) :
    countLower (l ++ m) s = countLower l s + countLower m s := by
  simp [countLower, List.filter_append]

theorem countLower_of_not_inFiles :
    ∀ (l : List (Bytes × Nat)) (s : Bytes), inFiles l s = false → countLower l s = 0
  | [], _, _ => rfl
  | e :: t, s, h => by
    simp only [inFiles, List.any_cons, Bool.or_eq_false_iff] at h
    have ih := countLower_of_not_inFiles t s (by simp [inFiles, h.2])
    simp only [countLower, List.filter_cons, h.1] at ih ⊢
    simpa using ih

theorem noDupFiles_append_one :
    ∀ (l : List (Bytes × Nat)) (s : Bytes) (k : Nat),
      noDupFiles l = true → inFiles l s = false → noDupFiles (l ++ [(s, k)]) = true
  | [], s, k, _, _ => by simp [noDupFiles, inFiles]
  | e :: t, s, k, hnd, hnf => by
    simp only [noDupFiles, Bool.and_eq_true, Bool.not_eq_true'] at hnd
    simp only [inFiles, List.any_cons, Bool.or_eq_false_iff] at hnf
    have ih := noDupFiles_append_one t s k hnd.2 (by simpa [inFiles] using hnf.2)
    have hsym : (strLower s == strLower e.1) = false :=
      beq_eq_false_iff_ne.mpr (Ne.symm (beq_eq_false_iff_ne.mp hnf.1))
    simp only [List.cons_append, noDupFiles, Bool.and_eq_true, Bool.not_eq_true']
    refine ⟨?_, ih⟩
    have h1 : (t.any fun x => strLower x.1 == strLower e.1) = false := by
      simpa [inFiles] using hnd.1
    simp [inFiles, List.any_append, h1, hsym]

theorem addFile_noDup (st : ScanState) (u : Bytes)
    (h : noDupFiles st.files = true) : noDupFiles (addFile st u).1.files = true := by
  by_cases hin : inFiles st.files u
  · simp [addFile, hin, h]
  · rw [addFile_files_new st u (by simpa using hin)]
    exact noDupFiles_append_one _ _ _ h (by simpa using hin)

/-- C5: scheduling the same filename twice through AddFile, in any character
case, yields exactly one matching entry of _aFilesToPack: the second call
returns false and leaves the state untouched, the count of case-insensitive
matches is one, and one AddFile call on a duplicate-free list keeps it
duplicate-free, so no sequence of AddFile calls ever stores a NormalizedPath
twice. -/
theorem addFile_dedup (st : ScanState) (s t : Bytes)
    (hlow : strLower t = strLower s)
    (hnew : inFiles st.files s = false)
    (hnd : noDupFiles st.files = true) :
    addFile (addFile st s).1 t = ((addFile st s).1, false)
      ∧ countLower (addFile (addFile st s).1 t).1.files s = 1
      ∧ (∀ u : Bytes, noDupFiles (addFile st u).1.files = true) := by
  have hmem : inFiles (addFile st s).1.files t = true := by
    rw [inFiles_congr _ hlow]
    exact addFile_mem st s
  have p1 := addFile_already _ t hmem
  refine ⟨p1, ?_, fun u => addFile_noDup st u hnd⟩
  rw [p1]
  rw [addFile_files_new st s hnew, countLower_append,
    countLower_of_not_inFiles st.files s hnew]
  simp [countLower]

/-- C5, witness: the same model filename scheduled twice, first in mixed case
and then uppercase, on an initially empty list. -/
theorem addFile_dedup_witness :
    strLower (str "MODELS/TREE.MDL") = strLower (str "Models/Tree.mdl")
      ∧ addFile (addFile (st0 0) (str "Models/Tree.mdl")).1 (str "MODELS/TREE.MDL")
          = ((addFile (st0 0) (str "Models/Tree.mdl")).1, false)
      ∧ countLower (addFile (addFile (st0 0) (str "Models/Tree.mdl")).1
          (str "MODELS/TREE.MDL")).1.files (str "Models/Tree.mdl") = 1
      ∧ noDupFiles (addFile (st0 0) (str "Sounds/Boom.wav")).1.files = true :=
  ⟨by decide,
    (addFile_dedup (st0 0) (str "Models/Tree.mdl") (str "MODELS/TREE.MDL")
      (by decide) (by decide) (by decide)).1,
    (addFile_dedup (st0 0) (str "Models/Tree.mdl") (str "MODELS/TREE.MDL")
      (by decide) (by decide) (by decide)).2.1,
    (addFile_dedup (st0 0) (str "Models/Tree.mdl") (str "MODELS/TREE.MDL")
      (by decide) (by decide) (by decide)).2.2 (str "Sounds/Boom.wav")⟩

/-! ## Claim C6 -/

/-- C6: a world dictionary with count 2 whose entries are Models\Tree.mdl and
the empty string schedules exactly one file, Models/Tree.mdl, when config
packing is off, and additionally Models/Tree.ini when SCAN_INI is set, with
no standard dependencies declared: the empty entry consumes its slot of the
count but contributes nothing. -/
theorem scanWorldDictionary_c6 :
    dictFiles (scanWorldDictionary (cfg0 (fun _ => none)) (st0 0) ⟨dictC6, 0⟩)
        = some [str "Models/Tree.mdl"]
      ∧ dictFiles (scanWorldDictionary (cfg0 (fun _ => none)) (st0 2) ⟨dictC6, 0⟩)
        = some [str "Models/Tree.mdl", str "Models/Tree.ini"] := by decide

/-! ## Claim C7 -/

theorem verifyWorldFile_none (data : Bytes)
    (h : data.take 4 ≠ str "BUIV" ∨ (data.drop 8).take 4 ≠ str "WRLD") :
    verifyWorldFile ⟨data, 0⟩ = none := by
  by_cases h1 : data.take 4 = str "BUIV"
  · rcases h with h | h
    · exact absurd h1 h
    · simp [verifyWorldFile, dread, readS32, dskip, dpeek, h1, h]
  · simp [verifyWorldFile, dread, dpeek, h1]

theorem scanWorld_of_open (cfg : ScanConfig) (st : ScanState) (w data : Bytes)
    (hopen : cfg.fs (cfg.root ++ cfg.mod ++ w) = some data) :
    scanWorld cfg st w
      = match verifyWorldFile ⟨data, 0⟩ with
        | none => .error (.badFormat, st)
        | some s3 => scanWorldBody cfg st w s3 := by
  unfold scanWorld
  rw [hopen]

/-- C7: when the opened world bytes do not begin with BUIV, or the four bytes
after the build-version field are not WRLD, ScanWorld raises the format error
before touching any dictionary entry, with the scan state (in particular
_aFilesToPack) exactly as before the call. -/
theorem scanWorld_badMarkers (cfg : ScanConfig) (st : ScanState) (w data : Bytes)
    (hopen : cfg.fs (cfg.root ++ cfg.mod ++ w) = some data)
    (hbad : data.take 4 ≠ str "BUIV" ∨ (data.drop 8).take 4 ≠ str "WRLD") :
    scanWorld cfg st w = .error (.badFormat, st) := by
  rw [scanWorld_of_open cfg st w data hopen, verifyWorldFile_none data hbad]

/-- C7, witness: the w.wld bytes carry BUIV and a build version but garbage
instead of WRLD, and the scan returns the format error with the state intact. -/
theorem scanWorld_badMarkers_witness :
    cfgC7.fs (cfgC7.root ++ cfgC7.mod ++ str "w.wld") = some dataC7
      ∧ (dataC7.drop 8).take 4 ≠ str "WRLD"
      ∧ scanWorld cfgC7 (st0 0) (str "w.wld") = .error (.badFormat, st0 0) :=
  ⟨by decide, by decide,
    scanWorld_badMarkers cfgC7 (st0 0) (str "w.wld") dataC7 (by decide)
      (Or.inr (by decide))⟩

/-! ## Claim C9 -/

/-- C9: the implied-files block of ScanWorld schedules the resolved thumbnail
and the VIS file through AddFile alone: whenever each exists on disk and is
not yet listed, both land in _aFilesToPack even though both lowercase keys
are standard dependencies, the dependency set never being consulted. -/
theorem addWorldExtras_ignores_depends (cfg : ScanConfig) (st : ScanState) (w : Bytes)
    (hTbnEx : fileExistsAt cfg (cfg.root ++ cfg.mod ++ resolveThumb cfg w) = true)
    (hTbnDep : inDepends cfg.deps (strLower (resolveThumb cfg w)) = true)
    (hTbnNew : inFiles st.files (resolveThumb cfg w) = false)
    (hVisEx : fileExistsAt cfg (cfg.root ++ cfg.mod ++ (removeExt w ++ str ".vis")) = true)
    (hVisDep : inDepends cfg.deps (strLower (removeExt w ++ str ".vis")) = true)
    (hVisNew : inFiles st.files (removeExt w ++ str ".vis") = false)
    (hNe : strLower (removeExt w ++ str ".vis") ≠ strLower (resolveThumb cfg w)) :
    resolveThumb cfg w ∈ (addWorldExtras cfg st w).files.map Prod.fst
      ∧ (removeExt w ++ str ".vis") ∈ (addWorldExtras cfg st w).files.map Prod.fst := by
  have hIn2 : inFiles (addFile st (resolveThumb cfg w)).1.files
      (removeExt w ++ str ".vis") = false := by
    rw [addFile_files_new st _ hTbnNew, inFiles_append]
    have hone : inFiles [(resolveThumb cfg w, if st.bCountFiles then st.ctFiles + 1 else 0)]
        (removeExt w ++ str ".vis") = false := by
      simp only [inFiles, List.any_cons, List.any_nil, Bool.or_false]
      exact beq_eq_false_iff_ne.mpr (fun hh => hNe hh.symm)
    simp [hVisNew, hone]
  unfold addWorldExtras
  simp only [hTbnEx, hVisEx, if_true]
  rw [addFile_files_new _ _ hIn2, addFile_files_new st _ hTbnNew]
  simp [List.mem_append]

/-- C9, witness: for the world Lev.wld both LevTbn.tex and Lev.vis exist,
both lowercase keys are standard dependencies, and both are scheduled anyway. -/
theorem addWorldExtras_ignores_depends_witness :
    inDepends cfgC9.deps (strLower (resolveThumb cfgC9 (str "Lev.wld"))) = true
      ∧ inDepends cfgC9.deps (strLower (removeExt (str "Lev.wld") ++ str ".vis")) = true
      ∧ resolveThumb cfgC9 (str "Lev.wld")
          ∈ (addWorldExtras cfgC9 (st0 0) (str "Lev.wld")).files.map Prod.fst
      ∧ (removeExt (str "Lev.wld") ++ str ".vis")
          ∈ (addWorldExtras cfgC9 (st0 0) (str "Lev.wld")).files.map Prod.fst :=
  ⟨by decide, by decide,
    (addWorldExtras_ignores_depends cfgC9 (st0 0) (str "Lev.wld") (by decide) (by decide)
      (by decide) (by decide) (by decide) (by decide) (by decide)).1,
    (addWorldExtras_ignores_depends cfgC9 (st0 0) (str "Lev.wld") (by decide) (by decide)
      (by decide) (by decide) (by decide) (by decide) (by decide)).2⟩

/-! ## Claim C10 -/

/-- C10: in the generic scanner loop, a DFNM marker whose fully present
32-bit size field is 254 or more extracts no filename and leaves the cursor
exactly 5 bytes past the marker start (the four marker bytes plus the
one-byte advance), so candidate positions inside the consumed bytes are never
examined as marker starts; a position where no marker matches advances by a
single byte only. -/
theorem scanAnyStep_c10 (cfg : ScanConfig) (st : ScanState) (data : Bytes) (pos : Nat) :
    (dpeek ⟨data, pos⟩ 4 = str "DFNM" → pos + 8 ≤ data.length →
      254 ≤ leU32 (dpeek ⟨data, pos + 4⟩ 4) →
      scanAnyStep cfg st ⟨data, pos⟩ = (st, ⟨data, pos + 5⟩))
    ∧ (dpeek ⟨data, pos⟩ 4 ≠ str "DFNM" → dpeek ⟨data, pos⟩ 4 ≠ str "EFNM" →
      dpeek ⟨data, pos⟩ 4 ≠ str "TFNM" →
      scanAnyStep cfg st ⟨data, pos⟩ = (st, ⟨data, pos + 1⟩)) := by
  constructor
  · intro hC _hLen hSize
    have hlt : ¬ leU32 (dpeek ⟨data, pos + 4⟩ 4) < 254 := Nat.not_lt.mpr hSize
    simp [scanAnyStep, scanAnyFinish, dskip, hC, hlt, Nat.add_assoc]
  · intro h1 h2 h3
    simp [scanAnyStep, scanAnyFinish, dskip, h1, h2, h3]

/-- C10, witness: a DFNM marker with size field 254 jumps 5 bytes, and a
position with no marker advances 1 byte. -/
theorem scanAnyStep_c10_witness :
    dpeek ⟨str "DFNM" ++ [254, 0, 0, 0], 0⟩ 4 = str "DFNM"
      ∧ 254 ≤ leU32 (dpeek ⟨str "DFNM" ++ [254, 0, 0, 0], 0 + 4⟩ 4)
      ∧ scanAnyStep (cfg0 (fun _ => none)) (st0 0) ⟨str "DFNM" ++ [254, 0, 0, 0], 0⟩
          = (st0 0, ⟨str "DFNM" ++ [254, 0, 0, 0], 0 + 5⟩)
      ∧ scanAnyStep (cfg0 (fun _ => none)) (st0 0) ⟨str "junkjunk", 0⟩
          = (st0 0, ⟨str "junkjunk", 0 + 1⟩) :=
  ⟨by decide, by decide,
    (scanAnyStep_c10 (cfg0 (fun _ => none)) (st0 0) (str "DFNM" ++ [254, 0, 0, 0]) 0).1
      (by decide) (by decide) (by decide),
    (scanAnyStep_c10 (cfg0 (fun _ => none)) (st0 0) (str "junkjunk") 0).2
      (by decide) (by decide) (by decide)⟩

/-! ## Claim C3 -/

/-- C3, counterexample: a 200-byte effect texture (36-byte header, FXDT
marker, no null byte in the scanned range) whose backward scan inspects
position 199, only 1 byte from the end, and position 57, which is 143 bytes
from the end: the scan is not bounded 56 bytes from the end of the file in
either direction of that reading. -/
theorem texBackScan_c3_counterexample :
    (fileC3.drop 36).take 4 = str "FXDT"
      ∧ fileC3.length = 200
      ∧ 199 ∈ (texBackScan fileC3 (fileC3.length - 1) 0).2.2
      ∧ 200 - 199 < 56
      ∧ 57 ∈ (texBackScan fileC3 (fileC3.length - 1) 0).2.2
      ∧ 56 < 200 - 57 := by decide

/-- C3, amended: the lower bound of the backward base-texture scan is the
absolute offset 56 from the start of the file, not 56 bytes from the end:
every inspected position lies strictly above 56 and at or below the starting
position (the last byte of the file). -/
theorem texBackScan_bounds :
    ∀ (data : Bytes) (pos ct p : Nat),
      p ∈ (texBackScan data pos ct).2.2 → 56 < p ∧ p ≤ pos
  | _, 0, _, _, h => by simp [texBackScan] at h
  | data, pos + 1, ct, p, h => by
    by_cases h1 : pos + 1 ≤ 56
    · simp [texBackScan, h1] at h
    · by_cases h2 : data.getD (pos + 1) 0 = 0
      · have hh : (texBackScan data (pos + 1) ct).2.2 = [pos + 1] := by
          simp only [texBackScan, if_neg h1]
          rw [if_pos h2]
        rw [hh] at h
        simp only [List.mem_singleton] at h
        omega
      · simp only [texBackScan, if_neg h1, if_neg h2, List.mem_cons] at h
        rcases h with h | h
        · omega
        · have ih := texBackScan_bounds data pos (ct + 1) p h
          omega

/-- C3, witness of the amended bound at the inspected position 57 of the
200-byte effect texture. -/
theorem texBackScan_bounds_witness :
    57 ∈ (texBackScan fileC3 199 0).2.2
      ∧ 56 < 57 ∧ 57 ≤ 199 :=
  ⟨by decide, (texBackScan_bounds fileC3 199 0 57 (by decide)).1,
    (texBackScan_bounds fileC3 199 0 57 (by decide)).2⟩

/-! ## Claim C2 -/

/-- C2, counterexample: with the scan list a.wld (absent from disk) then
b.txt (present, holding one DFNM dependency), the run aborts at a.wld with
nothing scheduled, while scanning b.txt alone schedules Sound.wav: the
failure to open one listed file does stop the scanning of the others. -/
theorem scanFilesLoop_c2_counterexample :
    runError (scanFilesLoop cfgC2 (st0 0) [str "a.wld", str "b.txt"])
        = some (.cannotOpen, [])
      ∧ runFiles (scanFilesLoop cfgC2 (st0 0) [str "b.txt"])
        = some [str "Sound.wav"] := by decide

/-- C2, amended: a file that cannot be opened is fatal for the whole run, not
only for that file: the CMessageException propagates out of the scan loop of
main, so none of the files listed after the failing one is scanned and the
loop result is the error raised at the failing file. -/
theorem scanFilesLoop_aborts (cfg : ScanConfig) (st : ScanState) (f : Bytes)
    (rest : List Bytes) (e : ScanError × ScanState)
    (h : scanOneFile cfg st f = .error e) :
    scanFilesLoop cfg st (f :: rest) = .error e := by
  unfold scanFilesLoop
  rw [h]

/-- C2, witness: the failing a.wld aborts the two-file run of the
counterexample configuration. -/
theorem scanFilesLoop_aborts_witness :
    scanOneFile cfgC2 (st0 0) (str "a.wld") = .error (.cannotOpen, st0 0)
      ∧ scanFilesLoop cfgC2 (st0 0) [str "a.wld", str "b.txt"]
        = .error (.cannotOpen, st0 0) :=
  ⟨rfl, scanFilesLoop_aborts cfgC2 (st0 0) (str "a.wld") [str "b.txt"]
    (.cannotOpen, st0 0) rfl⟩

